import Mathlib

/-!
Verification development for the `contratos_uniao` repository.

The repository contains two variants of a contract-query pipeline against the
Portal da Transparencia REST API:

* `services.py` : `consultar_contratos(codigo_orgao, cnpj, data_inicio,
  data_fim, valor_minimo, max_paginas)` — validates `codigo_orgao`, fetches
  pages, distinguishes HTTP 401 from other non-200 statuses, and normalizes
  records into an 11-column table.
* `streamlit_app.py` : `consultar_contratos(codigo_orgao, ug_executora,
  data_inicio, data_fim, valor_minimo, max_paginas)` — same loop without the
  validation and without the 401 branch, normalizes into a 15-column table and
  filters rows by `codigoUGExecutora == ug_executora`.  The page additionally
  offers a "vigentes" filter `df[df["dataFimVigencia"] >= pd.Timestamp.today()]`.

The embedding models decoded-JSON Python values (`PyVal`), Python truthiness
and `dict.get`, request-parameter construction, the pagination loop (as
structural recursion on the remaining loop iterations), record normalization
(a raised `AttributeError` is modelled by `Except`), and the pandas coercions
`pd.to_datetime(..., errors="coerce")` / `pd.to_numeric(..., errors="coerce")`
restricted to the value shapes the upstream API produces (ISO date strings,
nonnegative decimal strings, numbers, null).
-/

/-- A decimal number `mant * 10 ^ (-exp)`.  This represents the JSON/Python
float values appearing in the pipeline (currency amounts, the `valor_minimo`
argument) exactly, without floating-point rounding; no claim depends on
arithmetic over these values, only on zero-ness and parse success. -/
structure Dec where
  mant : Int
  exp : Nat
deriving DecidableEq

/-- A Python value as produced by `response.json()`: JSON null decodes to
Python `None`, objects to `dict`, arrays to `list`.  `dict.get(k)` on an
absent key also yields `None`, so a single `none` constructor models both. -/
inductive PyVal where
  | none : PyVal
  | str : String → PyVal
  | num : Dec → PyVal
  | bool : Bool → PyVal
  | dict : List (String × PyVal) → PyVal
  | list : List PyVal → PyVal

/-- Python truthiness of a decoded JSON value (`bool(v)`): `None`, `""`, `0`,
`{}`, `[]` and `False` are falsy, everything else is truthy. -/
def truthy : PyVal → Bool
  | PyVal.none => false
  | PyVal.str s => !s.isEmpty
  | PyVal.num q => q.mant != 0
  | PyVal.bool b => b
  | PyVal.dict fs => !fs.isEmpty
  | PyVal.list xs => !xs.isEmpty

/-- Python `a or b` on already-evaluated values: `a` if truthy, else `b`. -/
def pyOr (a b : PyVal) : PyVal :=
  if truthy a then a else b

/-- Key lookup in a decoded JSON object (upstream JSON objects carry no
duplicate keys). -/
def dictGet (fs : List (String × PyVal)) (k : String) : Option PyVal :=
  (fs.find? (fun p => p.1 == k)).map (fun p => p.2)

/-- Python `d.get(k)` on a dict `d`: the stored value when the key is present
(possibly `None` for a JSON null), `None` when absent. -/
def dGet (fs : List (String × PyVal)) (k : String) : PyVal :=
  (dictGet fs k).getD PyVal.none

/-- pandas elementwise equality of an object-dtype cell against a string
scalar, as in `df["codigoUGExecutora"] == ug_executora`: `None`/NaN and
non-string cells compare unequal. -/
def pyEqStr (v : PyVal) (s : String) : Bool :=
  match v with
  | PyVal.str t => t == s
  | _ => false

/-- A calendar date. -/
structure Date where
  y : Nat
  m : Nat
  d : Nat
deriving DecidableEq

/-- A pandas `Timestamp`: a calendar date plus a time of day (in minutes past
midnight).  `pd.to_datetime` of a plain date string yields midnight;
`pd.Timestamp.today()` carries the current wall-clock time of day. -/
structure Timestamp where
  date : Date
  minutes : Nat
deriving DecidableEq

/-- Strict ordering of dates (year, then month, then day). -/
def Date.ltB (a b : Date) : Bool :=
  a.y < b.y || (a.y == b.y && (a.m < b.m || (a.m == b.m && a.d < b.d)))

/-- `a <= b` on timestamps: date order first, minutes break ties. -/
def Timestamp.leB (a b : Timestamp) : Bool :=
  Date.ltB a.date b.date || (a.date == b.date && a.minutes ≤ b.minutes)

/-- Split a character list at every occurrence of `sep`. -/
def splitChar (sep : Char) : List Char → List (List Char)
  | [] => [[]]
  | c :: rest =>
    let r := splitChar sep rest
    if c = sep then [] :: r
    else
      match r with
      | h :: t => (c :: h) :: t
      | [] => [[c]]

/-- Value of a nonempty all-digit character list. -/
def digitsVal (cs : List Char) : Option Nat :=
  if cs.isEmpty then Option.none
  else if cs.all Char.isDigit then
    some (cs.foldl (fun a c => a * 10 + (c.toNat - 48)) 0)
  else Option.none

/-- Parse an ISO `YYYY-MM-DD` date string; anything else fails. -/
def parseDateStr (s : String) : Option Date :=
  match splitChar (Char.ofNat 45) s.data with
  | [ys, ms, ds] =>
    match digitsVal ys, digitsVal ms, digitsVal ds with
    | some y, some m, some d =>
      if 1 ≤ m && m ≤ 12 && 1 ≤ d && d ≤ 31 then some ⟨y, m, d⟩ else Option.none
    | _, _, _ => Option.none
  | _ => Option.none

/-- Parse a nonnegative decimal string such as `"1234"` or `"12.50"`. -/
def parseDecStr (s : String) : Option Dec :=
  match splitChar (Char.ofNat 46) s.data with
  | [a] => (digitsVal a).map (fun n => ⟨(n : Int), 0⟩)
  | [a, b] =>
    match digitsVal a, digitsVal b with
    | some n, some f => some ⟨(n : Int) * (10 : Int) ^ b.length + (f : Int), b.length⟩
    | _, _ => Option.none
  | _ => Option.none

/-- `pd.to_datetime(cell, errors="coerce")` on the value shapes the upstream
API produces: an ISO date string parses to a midnight timestamp, everything
else (null, unparsable strings, non-strings) coerces to `NaT`, never raising. -/
def toDatetime (v : PyVal) : Option Timestamp :=
  match v with
  | PyVal.str s => (parseDateStr s).map (fun d => ⟨d, 0⟩)
  | _ => Option.none

/-- `pd.to_numeric(cell, errors="coerce")` on the value shapes the upstream
API produces: numbers pass through, decimal strings parse, everything else
(null, unparsable strings) coerces to NaN, never raising. -/
def toNumeric (v : PyVal) : Option Dec :=
  match v with
  | PyVal.num q => some q
  | PyVal.bool b => some (if b then ⟨1, 0⟩ else ⟨0, 0⟩)
  | PyVal.str s => parseDecStr s
  | _ => Option.none

/-- An HTTP response for one page request: status code, body text, and the
decoded JSON body (the upstream endpoint answers each page with a JSON
array of raw contract records). -/
structure Response where
  status : Nat
  text : String
  body : List PyVal

/-- The exceptions the two pipelines can raise.  `validation` is the
`ValueError` of `services.py` line 21, `auth` its 401 `Exception` (line 40),
`upstream` the generic non-200 `Exception` carrying status code and response
body, and `attr` the `AttributeError` raised when `.get` is called on a
non-dict value during normalization. -/
inductive Err where
  | validation : String → Err
  | auth : String → Err
  | upstream : Nat → String → Err
  | attr : Err
deriving DecidableEq

/-- Whether an error is the distinct authentication error. -/
def isAuthErr : Err → Bool
  | Err.auth _ => true
  | _ => false

/-- Query parameters of one page request, in insertion order. -/
def ParamsT : Type := List (String × PyVal)

/-- Python truthiness of an optional string argument (default `None`). -/
def truthyStrOpt : Option String → Bool
  | Option.none => false
  | some s => !s.isEmpty

/-- Python truthiness of an optional float argument (default `None`):
`None` and `0.0` are falsy. -/
def truthyDecOpt : Option Dec → Bool
  | Option.none => false
  | some d => d.mant != 0

/-- Query parameters built by `services.py` lines 27-35: mandatory `pagina`
and `codigoOrgao`, then each optional filter only when truthy. -/
def buildParamsS (pagina : Nat) (codigo_orgao : String) (cnpj data_inicio data_fim : Option String)
    (valor_minimo : Option Dec) : ParamsT :=
  [("pagina", PyVal.num ⟨(pagina : Int), 0⟩), ("codigoOrgao", PyVal.str codigo_orgao)]
    ++ (if truthyStrOpt cnpj then [("cpfCnpjFornecedor", PyVal.str (cnpj.getD ""))] else [])
    ++ (if truthyStrOpt data_inicio then [("dataInicioVigencia", PyVal.str (data_inicio.getD ""))] else [])
    ++ (if truthyStrOpt data_fim then [("dataFimVigencia", PyVal.str (data_fim.getD ""))] else [])
    ++ (if truthyDecOpt valor_minimo then [("valorMinimo", PyVal.num (valor_minimo.getD ⟨0, 0⟩))] else [])

/-- Query parameters built by `streamlit_app.py` lines 23-32 (no supplier
tax-id filter in this variant). -/
def buildParamsA (pagina : Nat) (codigo_orgao : String) (data_inicio data_fim : Option String)
    (valor_minimo : Option Dec) : ParamsT :=
  [("pagina", PyVal.num ⟨(pagina : Int), 0⟩), ("codigoOrgao", PyVal.str codigo_orgao)]
    ++ (if truthyStrOpt data_inicio then [("dataInicioVigencia", PyVal.str (data_inicio.getD ""))] else [])
    ++ (if truthyStrOpt data_fim then [("dataFimVigencia", PyVal.str (data_fim.getD ""))] else [])
    ++ (if truthyDecOpt valor_minimo then [("valorMinimo", PyVal.num (valor_minimo.getD ⟨0, 0⟩))] else [])

/-- Pagination loop of `services.py` lines 26-49, as structural recursion on
the remaining loop iterations (`fuel = max_paginas - pagina + 1`, so the
`while pagina <= max_paginas` guard holds exactly when `fuel > 0`).  Returns
the accumulated `todos_dados` (or the raised exception) together with the
parameter dicts of the requests issued, in order.  A 401 status raises the
token exception; any other non-200 status raises the generic exception with
status code and response body; an empty decoded body breaks the loop. -/
def fetchGoS (respond : Nat → Response) (codigo_orgao : String)
    (cnpj data_inicio data_fim : Option String) (valor_minimo : Option Dec) :
    Nat → Nat → Except Err (List PyVal) × List ParamsT
  | 0, _ => (Except.ok [], [])
  | fuel + 1, pagina =>
    let params := buildParamsS pagina codigo_orgao cnpj data_inicio data_fim valor_minimo
    let r := respond pagina
    if r.status = 401 then
      (Except.error (Err.auth "Token invalido ou expirado!"), [params])
    else if r.status ≠ 200 then
      (Except.error (Err.upstream r.status r.text), [params])
    else
      match r.body with
      | [] => (Except.ok [], [params])
      | dados =>
        let rest := fetchGoS respond codigo_orgao cnpj data_inicio data_fim valor_minimo fuel (pagina + 1)
        (rest.1.map (fun l => dados ++ l), params :: rest.2)

/-- Pagination loop of `streamlit_app.py` lines 22-44: identical to the
`services.py` loop except that there is no dedicated 401 branch (every
non-200 status raises the generic exception) and no supplier filter. -/
def fetchGoA (respond : Nat → Response) (codigo_orgao : String)
    (data_inicio data_fim : Option String) (valor_minimo : Option Dec) :
    Nat → Nat → Except Err (List PyVal) × List ParamsT
  | 0, _ => (Except.ok [], [])
  | fuel + 1, pagina =>
    let params := buildParamsA pagina codigo_orgao data_inicio data_fim valor_minimo
    let r := respond pagina
    if r.status ≠ 200 then
      (Except.error (Err.upstream r.status r.text), [params])
    else
      match r.body with
      | [] => (Except.ok [], [params])
      | dados =>
        let rest := fetchGoA respond codigo_orgao data_inicio data_fim valor_minimo fuel (pagina + 1)
        (rest.1.map (fun l => dados ++ l), params :: rest.2)

/-- The flat record built by `services.py` lines 57-69 (one row dict of the
`registros` list), before the pandas coercions. -/
structure RegS where
  numeroContrato : PyVal
  objeto : PyVal
  situacao : PyVal
  valorInicial : PyVal
  valorFinal : PyVal
  dataInicioVigencia : PyVal
  dataFimVigencia : PyVal
  nomeFornecedor : PyVal
  cnpjFornecedor : PyVal
  codigoOrgao : PyVal
  nomeOrgao : PyVal

/-- The flat record built by `streamlit_app.py` lines 52-73, before the
pandas coercions. -/
structure RegA where
  numeroContrato : PyVal
  objeto : PyVal
  situacao : PyVal
  valorInicial : PyVal
  valorFinal : PyVal
  dataInicioVigencia : PyVal
  dataFimVigencia : PyVal
  nomeFornecedor : PyVal
  cnpjFornecedor : PyVal
  codigoUGExecutora : PyVal
  nomeUGExecutora : PyVal
  codigoUGResponsavel : PyVal
  nomeUGResponsavel : PyVal
  codigoOrgao : PyVal
  nomeOrgao : PyVal

/-- Normalization of one raw record by `services.py` lines 57-69.  The nested
accesses `contrato.get("fornecedor", {}).get(...)` and
`contrato.get("unidadeGestora", {}).get("orgaoVinculado", {}).get(...)` raise
`AttributeError` when the looked-up value is present but not a dict (e.g. a
JSON null); an absent key falls back to the `{}` default and proceeds. -/
def normalizeS (c : PyVal) : Except Err RegS :=
  match c with
  | PyVal.dict fs =>
    match (dictGet fs "fornecedor").getD (PyVal.dict []),
        (dictGet fs "unidadeGestora").getD (PyVal.dict []) with
    | PyVal.dict ffs, PyVal.dict gfs =>
      match (dictGet gfs "orgaoVinculado").getD (PyVal.dict []) with
      | PyVal.dict ofs =>
        Except.ok
          { numeroContrato := pyOr (dGet fs "numero") (dGet fs "numeroContrato"),
            objeto := dGet fs "objeto",
            situacao := dGet fs "situacaoContrato",
            valorInicial := dGet fs "valorInicialCompra",
            valorFinal := dGet fs "valorFinalCompra",
            dataInicioVigencia := dGet fs "dataInicioVigencia",
            dataFimVigencia := dGet fs "dataFimVigencia",
            nomeFornecedor := pyOr (dGet ffs "nome") (dGet ffs "razaoSocialReceita"),
            cnpjFornecedor := pyOr (dGet ffs "cnpjFormatado") (dGet ffs "cnpj"),
            codigoOrgao := dGet ofs "codigoSIAFI",
            nomeOrgao := dGet ofs "nome" }
      | _ => Except.error Err.attr
    | _, _ => Except.error Err.attr
  | _ => Except.error Err.attr

/-- Normalization of one raw record by `streamlit_app.py` lines 52-73, with
the additional `unidadeGestoraCompras` (UG executora) and `unidadeGestora`
(UG responsavel) fields. -/
def normalizeA (c : PyVal) : Except Err RegA :=
  match c with
  | PyVal.dict fs =>
    match (dictGet fs "fornecedor").getD (PyVal.dict []),
        (dictGet fs "unidadeGestoraCompras").getD (PyVal.dict []),
        (dictGet fs "unidadeGestora").getD (PyVal.dict []) with
    | PyVal.dict ffs, PyVal.dict cfs, PyVal.dict gfs =>
      match (dictGet gfs "orgaoVinculado").getD (PyVal.dict []) with
      | PyVal.dict ofs =>
        Except.ok
          { numeroContrato := pyOr (dGet fs "numero") (dGet fs "numeroContrato"),
            objeto := dGet fs "objeto",
            situacao := dGet fs "situacaoContrato",
            valorInicial := dGet fs "valorInicialCompra",
            valorFinal := dGet fs "valorFinalCompra",
            dataInicioVigencia := dGet fs "dataInicioVigencia",
            dataFimVigencia := dGet fs "dataFimVigencia",
            nomeFornecedor := pyOr (dGet ffs "nome") (dGet ffs "razaoSocialReceita"),
            cnpjFornecedor := pyOr (dGet ffs "cnpjFormatado") (dGet ffs "cnpj"),
            codigoUGExecutora := dGet cfs "codigo",
            nomeUGExecutora := dGet cfs "nome",
            codigoUGResponsavel := dGet gfs "codigo",
            nomeUGResponsavel := dGet gfs "nome",
            codigoOrgao := dGet ofs "codigoSIAFI",
            nomeOrgao := dGet ofs "nome" }
      | _ => Except.error Err.attr
    | _, _, _ => Except.error Err.attr
  | _ => Except.error Err.attr

/-- The `for contrato in todos_dados` normalization loop: the first record
whose normalization raises aborts the whole operation, otherwise the rows
are produced in input order. -/
def mapRegs {α : Type} (f : PyVal → Except Err α) : List PyVal → Except Err (List α)
  | [] => Except.ok []
  | x :: xs =>
    match f x with
    | Except.error e => Except.error e
    | Except.ok y =>
      match mapRegs f xs with
      | Except.error e => Except.error e
      | Except.ok ys => Except.ok (y :: ys)

/-- A `services.py` row after the pandas coercions of lines 74-77: the two
date columns hold `Timestamp`s (`NaT` = `Option.none`), the two value
columns numbers (NaN = `Option.none`). -/
structure ContratoS where
  numeroContrato : PyVal
  objeto : PyVal
  situacao : PyVal
  valorInicial : Option Dec
  valorFinal : Option Dec
  dataInicioVigencia : Option Timestamp
  dataFimVigencia : Option Timestamp
  nomeFornecedor : PyVal
  cnpjFornecedor : PyVal
  codigoOrgao : PyVal
  nomeOrgao : PyVal

/-- A `streamlit_app.py` row after the pandas coercions of lines 78-81. -/
structure ContratoA where
  numeroContrato : PyVal
  objeto : PyVal
  situacao : PyVal
  valorInicial : Option Dec
  valorFinal : Option Dec
  dataInicioVigencia : Option Timestamp
  dataFimVigencia : Option Timestamp
  nomeFornecedor : PyVal
  cnpjFornecedor : PyVal
  codigoUGExecutora : PyVal
  nomeUGExecutora : PyVal
  codigoUGResponsavel : PyVal
  nomeUGResponsavel : PyVal
  codigoOrgao : PyVal
  nomeOrgao : PyVal

/-- The pandas coercions of `services.py` lines 74-77 applied to one row. -/
def coerceS (r : RegS) : ContratoS :=
  { numeroContrato := r.numeroContrato,
    objeto := r.objeto,
    situacao := r.situacao,
    valorInicial := toNumeric r.valorInicial,
    valorFinal := toNumeric r.valorFinal,
    dataInicioVigencia := toDatetime r.dataInicioVigencia,
    dataFimVigencia := toDatetime r.dataFimVigencia,
    nomeFornecedor := r.nomeFornecedor,
    cnpjFornecedor := r.cnpjFornecedor,
    codigoOrgao := r.codigoOrgao,
    nomeOrgao := r.nomeOrgao }

/-- The pandas coercions of `streamlit_app.py` lines 78-81 applied to one row. -/
def coerceA (r : RegA) : ContratoA :=
  { numeroContrato := r.numeroContrato,
    objeto := r.objeto,
    situacao := r.situacao,
    valorInicial := toNumeric r.valorInicial,
    valorFinal := toNumeric r.valorFinal,
    dataInicioVigencia := toDatetime r.dataInicioVigencia,
    dataFimVigencia := toDatetime r.dataFimVigencia,
    nomeFornecedor := r.nomeFornecedor,
    cnpjFornecedor := r.cnpjFornecedor,
    codigoUGExecutora := r.codigoUGExecutora,
    nomeUGExecutora := r.nomeUGExecutora,
    codigoUGResponsavel := r.codigoUGResponsavel,
    nomeUGResponsavel := r.nomeUGResponsavel,
    codigoOrgao := r.codigoOrgao,
    nomeOrgao := r.nomeOrgao }

/-- Column set of the nonempty `services.py` DataFrame, in dict-literal
order. -/
def colsS : List String :=
  ["numeroContrato", "objeto", "situacao", "valorInicial", "valorFinal",
   "dataInicioVigencia", "dataFimVigencia", "nomeFornecedor", "cnpjFornecedor",
   "codigoOrgao", "nomeOrgao"]

/-- Column set of the nonempty `streamlit_app.py` DataFrame, in dict-literal
order. -/
def colsA : List String :=
  ["numeroContrato", "objeto", "situacao", "valorInicial", "valorFinal",
   "dataInicioVigencia", "dataFimVigencia", "nomeFornecedor", "cnpjFornecedor",
   "codigoUGExecutora", "nomeUGExecutora", "codigoUGResponsavel",
   "nomeUGResponsavel", "codigoOrgao", "nomeOrgao"]

/-- The `services.py` result table: its column list and its rows.  The bare
`pd.DataFrame()` returned when no records were accumulated has an empty
column list. -/
structure DataFrameS where
  columns : List String
  rows : List ContratoS

/-- The `streamlit_app.py` result table. -/
structure DataFrameA where
  columns : List String
  rows : List ContratoA

/-- `consultar_contratos` of `services.py` (lines 9-79): validate
`codigo_orgao` (Python truthiness: the empty string fails), run the
pagination loop, return the bare `pd.DataFrame()` when nothing was
accumulated, otherwise normalize every record and apply the column
coercions.  The second component lists the requests issued. -/
def consultarS (codigo_orgao : String) (cnpj data_inicio data_fim : Option String)
    (valor_minimo : Option Dec) (max_paginas : Nat) (respond : Nat → Response) :
    Except Err DataFrameS × List ParamsT :=
  if codigo_orgao = "" then
    (Except.error (Err.validation "O parametro codigo_orgao e obrigatorio!"), [])
  else
    let fo := fetchGoS respond codigo_orgao cnpj data_inicio data_fim valor_minimo max_paginas 1
    match fo.1 with
    | Except.error e => (Except.error e, fo.2)
    | Except.ok todos =>
      match todos with
      | [] => (Except.ok ⟨[], []⟩, fo.2)
      | _ :: _ =>
        match mapRegs normalizeS todos with
        | Except.error e => (Except.error e, fo.2)
        | Except.ok regs => (Except.ok ⟨colsS, regs.map coerceS⟩, fo.2)

/-- `consultar_contratos` of `streamlit_app.py` (lines 9-86): no input
validation, pagination loop, bare `pd.DataFrame()` when nothing was
accumulated, otherwise normalization, coercions, and the line-84 filter
`df = df[df["codigoUGExecutora"] == ug_executora]`. -/
def consultarA (codigo_orgao ug_executora : String) (data_inicio data_fim : Option String)
    (valor_minimo : Option Dec) (max_paginas : Nat) (respond : Nat → Response) :
    Except Err DataFrameA × List ParamsT :=
  let fo := fetchGoA respond codigo_orgao data_inicio data_fim valor_minimo max_paginas 1
  match fo.1 with
  | Except.error e => (Except.error e, fo.2)
  | Except.ok todos =>
    match todos with
    | [] => (Except.ok ⟨[], []⟩, fo.2)
    | _ :: _ =>
      match mapRegs normalizeA todos with
      | Except.error e => (Except.error e, fo.2)
      | Except.ok regs =>
        (Except.ok ⟨colsA, (regs.map coerceA).filter
            (fun r => pyEqStr r.codigoUGExecutora ug_executora)⟩, fo.2)

/-- The "vigentes" filter of `streamlit_app.py` lines 134-136:
`df = df[df["dataFimVigencia"] >= hoje]` with `hoje = pd.Timestamp.today()`
(current date including wall-clock time).  A `NaT` cell compares `False`. -/
def vigentesHoje (df : DataFrameA) (hoje : Timestamp) : DataFrameA :=
  ⟨df.columns,
   df.rows.filter (fun r =>
     match r.dataFimVigencia with
     | some t => Timestamp.leB hoje t
     | Option.none => false)⟩

/-- A raw record whose executing unit (`unidadeGestoraCompras.codigo`) is "A". -/
def recA : PyVal :=
  PyVal.dict [("unidadeGestoraCompras", PyVal.dict [("codigo", PyVal.str "A")])]

/-- A raw record whose executing unit is "B". -/
def recB : PyVal :=
  PyVal.dict [("unidadeGestoraCompras", PyVal.dict [("codigo", PyVal.str "B")])]

/-- A second raw record with executing unit "A", distinguished by its
contract number. -/
def recA2 : PyVal :=
  PyVal.dict [("numero", PyVal.str "2"),
              ("unidadeGestoraCompras", PyVal.dict [("codigo", PyVal.str "A")])]

/-- An upstream that answers every page with a successful empty array. -/
def respEmpty : Nat → Response := fun _ => ⟨200, "", []⟩

/-- An upstream with one record on page 1 and nothing afterwards. -/
def respOne : Nat → Response :=
  fun n => if n = 1 then ⟨200, "", [recA]⟩ else ⟨200, "", []⟩

/-- An upstream with one "B"-unit record on page 1 and nothing afterwards. -/
def respB : Nat → Response :=
  fun n => if n = 1 then ⟨200, "", [recB]⟩ else ⟨200, "", []⟩

/-- An upstream with records of executing units "A", "B", "A" on page 1. -/
def respAB : Nat → Response :=
  fun n => if n = 1 then ⟨200, "", [recA, recB, recA2]⟩ else ⟨200, "", []⟩

/-- An upstream that reports unauthorized on every page. -/
def resp401 : Nat → Response := fun _ => ⟨401, "unauthorized", []⟩

/-- An upstream with a good page 1 and an unauthorized page 2. -/
def respAuth2 : Nat → Response :=
  fun n => if n = 1 then ⟨200, "", [recA]⟩ else ⟨401, "token expirado", []⟩

/-- The `streamlit_app.py` row with every source field absent. -/
def blankRegA : RegA :=
  { numeroContrato := PyVal.none, objeto := PyVal.none, situacao := PyVal.none,
    valorInicial := PyVal.none, valorFinal := PyVal.none,
    dataInicioVigencia := PyVal.none, dataFimVigencia := PyVal.none,
    nomeFornecedor := PyVal.none, cnpjFornecedor := PyVal.none,
    codigoUGExecutora := PyVal.none, nomeUGExecutora := PyVal.none,
    codigoUGResponsavel := PyVal.none, nomeUGResponsavel := PyVal.none,
    codigoOrgao := PyVal.none, nomeOrgao := PyVal.none }

/-- The `services.py` row with every source field absent. -/
def blankRegS : RegS :=
  { numeroContrato := PyVal.none, objeto := PyVal.none, situacao := PyVal.none,
    valorInicial := PyVal.none, valorFinal := PyVal.none,
    dataInicioVigencia := PyVal.none, dataFimVigencia := PyVal.none,
    nomeFornecedor := PyVal.none, cnpjFornecedor := PyVal.none,
    codigoOrgao := PyVal.none, nomeOrgao := PyVal.none }

/-- A normalized row whose validity end parsed to 2026-10-11 (yesterday,
relative to an evaluation date of 2026-10-12). -/
def rowYesterday : ContratoA :=
  coerceA { blankRegA with dataFimVigencia := PyVal.str "2026-10-11" }

/-- A normalized row whose validity end parsed to 2026-10-12 (today). -/
def rowToday : ContratoA :=
  coerceA { blankRegA with dataFimVigencia := PyVal.str "2026-10-12" }

/-- A normalized row whose validity end parsed to 2026-10-13 (tomorrow). -/
def rowTomorrow : ContratoA :=
  coerceA { blankRegA with dataFimVigencia := PyVal.str "2026-10-13" }

example : normalizeA recA = Except.ok { blankRegA with codigoUGExecutora := PyVal.str "A" } := rfl
example : normalizeS recA = Except.ok blankRegS := rfl
example : (consultarA "26000" "A" Option.none Option.none Option.none 50 respEmpty).1 =
    Except.ok ⟨[], []⟩ := rfl
example : (consultarA "26000" "A" Option.none Option.none Option.none 50 respOne).1 =
    Except.ok ⟨colsA, [coerceA { blankRegA with codigoUGExecutora := PyVal.str "A" }]⟩ := rfl
example : (consultarA "26000" "A" Option.none Option.none Option.none 50 respB).1 =
    Except.ok ⟨colsA, []⟩ := rfl
example : (consultarS "26000" Option.none Option.none Option.none Option.none 50 respOne).1 =
    Except.ok ⟨colsS, [coerceS blankRegS]⟩ := rfl
example : (consultarA "26000" "A" Option.none Option.none Option.none 50 resp401).1 =
    Except.error (Err.upstream 401 "unauthorized") := rfl
example : (consultarS "26000" Option.none Option.none Option.none Option.none 50 respAuth2).1 =
    Except.error (Err.auth "Token invalido ou expirado!") := rfl
example : (consultarS "" Option.none Option.none Option.none Option.none 50 respOne) =
    (Except.error (Err.validation "O parametro codigo_orgao e obrigatorio!"), []) := rfl

/-- A key of a raw record is either absent or holds an empty nested object. -/
def absentOrEmpty (fs : List (String × PyVal)) (k : String) : Prop :=
  dictGet fs k = Option.none ∨ dictGet fs k = some (PyVal.dict [])

/-- The normalization loop preserves the number of records when it succeeds. -/
theorem mapRegs_length {α : Type} (f : PyVal → Except Err α) :
    ∀ (l : List PyVal) (ys : List α), mapRegs f l = Except.ok ys → ys.length = l.length
  | [], ys, h => by
    simp only [mapRegs] at h
    cases h
    rfl
  | x :: xs, ys, h => by
    simp only [mapRegs] at h
    cases hfx : f x with
    | error e => rw [hfx] at h; cases h
    | ok y =>
      rw [hfx] at h
      cases hrest : mapRegs f xs with
      | error e => rw [hrest] at h; cases h
      | ok zs =>
        rw [hrest] at h
        cases h
        simp [mapRegs_length f xs zs hrest]

/-- The `streamlit_app.py` loop issues at most `fuel` requests. -/
theorem fetchGoA_requests_le (respond : Nat → Response) (codigo : String)
    (di dfim : Option String) (vm : Option Dec) :
    ∀ fuel pagina, ((fetchGoA respond codigo di dfim vm fuel pagina).2).length ≤ fuel := by
  intro fuel
  induction fuel with
  | zero => intro pagina; simp [fetchGoA]
  | succ n ih =>
    intro pagina
    simp only [fetchGoA]
    split
    · simp
    · split
      · simp
      · simpa using Nat.succ_le_succ (ih (pagina + 1))

example : truthy (PyVal.str "") = false := by decide
example : pyOr (PyVal.str "") (PyVal.str "X") = PyVal.str "X" := rfl
example : toDatetime (PyVal.str "2026-10-12") = some ⟨⟨2026, 10, 12⟩, 0⟩ := by decide
example : toDatetime (PyVal.str "soon") = Option.none := by decide
example : toDatetime PyVal.none = Option.none := rfl
example : toNumeric (PyVal.str "abc") = Option.none := by decide
example : toNumeric (PyVal.str "12.50") = some ⟨1250, 2⟩ := by decide
example : dGet [("a", PyVal.str "v")] "a" = PyVal.str "v" := rfl
example : dGet [("a", PyVal.str "v")] "b" = PyVal.none := rfl

/-- Claim C6 (counterexample): calling the `streamlit_app.py` pipeline entry
point with an empty agency code does not fail with a validation error: it
returns an ordinary (empty) result and it has already issued a page-1 network
request by then. -/
theorem claim6_counterexample :
    (consultarA "" "A" Option.none Option.none Option.none 50 respEmpty).1 = Except.ok ⟨[], []⟩
      ∧ (consultarA "" "A" Option.none Option.none Option.none 50 respEmpty).2
          = [buildParamsA 1 "" Option.none Option.none Option.none]
      ∧ [buildParamsA 1 "" Option.none Option.none Option.none] ≠ ([] : List ParamsT) :=
  ⟨rfl, rfl, List.cons_ne_nil _ _⟩

/-- Claim C6 (amended): in the `services.py` variant, a call with an empty
agency code fails with the validation error and issues no request at all;
the `streamlit_app.py` variant performs no such validation inside the entry
point (its UI guards the input instead). -/
theorem claim6_amended (cnpj data_inicio data_fim : Option String) (valor_minimo : Option Dec)
    (max_paginas : Nat) (respond : Nat → Response) :
    consultarS "" cnpj data_inicio data_fim valor_minimo max_paginas respond
      = (Except.error (Err.validation "O parametro codigo_orgao e obrigatorio!"), []) := rfl

/-- Claim C7 (code bug): the "vigentes" filter compares against
`pd.Timestamp.today()`, which carries the current time of day.  A record
whose `validityEnd` parsed to today at midnight is therefore excluded
whenever the filter is evaluated later than midnight (here: noon), although
the claim and the spec say a record with `validityEnd` = today is included;
evaluating at exactly midnight keeps it (second conjunct), and a
yesterday/tomorrow record is excluded/included as the claim states (third
conjunct). -/
theorem claim7_code_divergence :
    (vigentesHoje (DataFrameA.mk colsA [rowToday]) ⟨⟨2026, 10, 12⟩, 720⟩).rows = []
      ∧ (vigentesHoje (DataFrameA.mk colsA [rowToday]) ⟨⟨2026, 10, 12⟩, 0⟩).rows = [rowToday]
      ∧ (vigentesHoje (DataFrameA.mk colsA [rowYesterday, rowTomorrow]) ⟨⟨2026, 10, 12⟩, 720⟩).rows
          = [rowTomorrow] :=
  ⟨rfl, rfl, rfl⟩

/-- A zero `valor_minimo` (the float `0.0`, whatever its decimal exponent) is
falsy, so the `streamlit_app.py` loop builds the same parameter dicts and
issues the same requests as with the argument absent. -/
theorem fetchGoA_vm_zero (respond : Nat → Response) (codigo : String)
    (di dfim : Option String) (e : Nat) :
    ∀ fuel pagina, fetchGoA respond codigo di dfim (some ⟨0, e⟩) fuel pagina
      = fetchGoA respond codigo di dfim Option.none fuel pagina := by
  intro fuel
  induction fuel with
  | zero => intro pagina; rfl
  | succ n ih =>
    intro pagina
    have hb : buildParamsA pagina codigo di dfim (some ⟨0, e⟩)
        = buildParamsA pagina codigo di dfim Option.none := rfl
    simp only [fetchGoA, hb, ih]

/-- An empty-string supplier tax id and a zero `valor_minimo` are both falsy,
so the `services.py` loop builds the same parameter dicts and issues the same
requests as with both arguments absent. -/
theorem fetchGoS_falsy (respond : Nat → Response) (codigo : String)
    (di dfim : Option String) (e : Nat) :
    ∀ fuel pagina, fetchGoS respond codigo (some "") di dfim (some ⟨0, e⟩) fuel pagina
      = fetchGoS respond codigo Option.none di dfim Option.none fuel pagina := by
  intro fuel
  induction fuel with
  | zero => intro pagina; rfl
  | succ n ih =>
    intro pagina
    have hb : buildParamsS pagina codigo (some "") di dfim (some ⟨0, e⟩)
        = buildParamsS pagina codigo Option.none di dfim Option.none := rfl
    simp only [fetchGoS, hb, ih]

/-- Claim C10: falsy optional filter values are treated as absent.  A
`valor_minimo` of `0.0` (any decimal exponent) makes the `streamlit_app.py`
call — result and issued requests alike — identical to a call without the
argument, and likewise an empty-string supplier tax id together with a zero
minimum in the `services.py` call. -/
theorem claim10_falsy_filters :
    (∀ (codigo ug : String) (di dfim : Option String) (mp : Nat)
        (respond : Nat → Response) (e : Nat),
        consultarA codigo ug di dfim (some ⟨0, e⟩) mp respond
          = consultarA codigo ug di dfim Option.none mp respond)
      ∧ (∀ (codigo : String) (di dfim : Option String) (mp : Nat)
          (respond : Nat → Response) (e : Nat),
          consultarS codigo (some "") di dfim (some ⟨0, e⟩) mp respond
            = consultarS codigo Option.none di dfim Option.none mp respond) := by
  constructor
  · intro codigo ug di dfim mp respond e
    simp only [consultarA, fetchGoA_vm_zero]
  · intro codigo di dfim mp respond e
    simp only [consultarS, fetchGoS_falsy]

/-- A raw record carrying a falsy (empty-string) `numero` next to a truthy
`numeroContrato`. -/
def cexC2 : PyVal :=
  PyVal.dict [("numero", PyVal.str ""), ("numeroContrato", PyVal.str "X")]

/-- Claim C2 (counterexample): a raw record containing both `numero` (here
the empty string) and `numeroContrato` (here `"X"`) with different values
does not resolve `contractNumber` to the `numero` value: Python `or` skips
the falsy empty string and the normalized contract number is `"X"`. -/
theorem claim2_counterexample :
    (normalizeA cexC2).map (fun r => r.numeroContrato) = Except.ok (PyVal.str "X")
      ∧ dictGet [("numero", PyVal.str ""), ("numeroContrato", PyVal.str "X")] "numero"
          = some (PyVal.str "")
      ∧ PyVal.str "X" ≠ PyVal.str "" := by
  refine ⟨rfl, rfl, fun h => ?_⟩
  exact absurd (PyVal.str.inj h) (by decide)

/-- Claim C2 (amended): resolution across alternate source paths is
first-truthy-wins (Python `or`), not first-non-null-wins: the first-listed
path wins whenever its value is truthy (so in particular whenever both keys
are present with different non-falsy values), and the alternate path is used
whenever the first value is absent, null or falsy.  Analogously
`fornecedor.nome` over `fornecedor.razaoSocialReceita` and
`fornecedor.cnpjFormatado` over `fornecedor.cnpj`. -/
theorem claim2_amended :
    (∀ (fs : List (String × PyVal)) (v : PyVal) (reg : RegA),
        normalizeA (PyVal.dict fs) = Except.ok reg →
        dictGet fs "numero" = some v → truthy v = true →
        reg.numeroContrato = v)
      ∧ (∀ (fs : List (String × PyVal)) (reg : RegA),
          normalizeA (PyVal.dict fs) = Except.ok reg →
          truthy (dGet fs "numero") = false →
          reg.numeroContrato = dGet fs "numeroContrato")
      ∧ (∀ (fs ffs : List (String × PyVal)) (v : PyVal) (reg : RegA),
          normalizeA (PyVal.dict fs) = Except.ok reg →
          dictGet fs "fornecedor" = some (PyVal.dict ffs) →
          dictGet ffs "nome" = some v → truthy v = true →
          reg.nomeFornecedor = v)
      ∧ (∀ (fs ffs : List (String × PyVal)) (v : PyVal) (reg : RegA),
          normalizeA (PyVal.dict fs) = Except.ok reg →
          dictGet fs "fornecedor" = some (PyVal.dict ffs) →
          dictGet ffs "cnpjFormatado" = some v → truthy v = true →
          reg.cnpjFornecedor = v) := by
  refine ⟨?_, ?_, ?_, ?_⟩
  · intro fs v reg h hn ht
    simp only [normalizeA] at h
    split at h
    · split at h
      · cases h
        simp [pyOr, dGet, hn, ht]
      · cases h
    · cases h
  · intro fs reg h ht
    simp only [normalizeA] at h
    split at h
    · split at h
      · cases h
        simp [pyOr, ht]
      · cases h
    · cases h
  · intro fs ffs v reg h hf hn ht
    simp only [normalizeA, hf, Option.getD_some] at h
    split at h
    · split at h
      · cases h
        simp_all [pyOr, dGet]
      · cases h
    · cases h
  · intro fs ffs v reg h hf hn ht
    simp only [normalizeA, hf, Option.getD_some] at h
    split at h
    · split at h
      · cases h
        simp_all [pyOr, dGet]
      · cases h
    · cases h

/-- Claim C2 (witness): with `numero = "N1"` and `numeroContrato = "N2"` both
present and truthy, the normalized contract number is `"N1"`. -/
theorem claim2_witness :
    ({ blankRegA with numeroContrato := PyVal.str "N1" } : RegA).numeroContrato
      = PyVal.str "N1" :=
  claim2_amended.1 [("numero", PyVal.str "N1"), ("numeroContrato", PyVal.str "N2")]
    (PyVal.str "N1") { blankRegA with numeroContrato := PyVal.str "N1" } rfl rfl rfl

/-- Looking up any key in an empty dict yields `None`. -/
theorem dGet_nil (k : String) : dGet [] k = PyVal.none := rfl

/-- Key lookup in an empty dict finds nothing. -/
theorem dictGet_nil (k : String) : dictGet [] k = Option.none := rfl

/-- Claim C1: normalization never raises when a nested object is missing
along a source path.  First conjunct: a record whose `fornecedor`,
`unidadeGestoraCompras` and `unidadeGestora` sub-objects are each absent or
empty normalizes successfully, with missing supplier, executing-unit,
responsible-unit and agency leaf values.  Second conjunct: absence or
emptiness deeper along the `unidadeGestora.orgaoVinculado` path likewise
yields missing agency fields rather than a failure. -/
theorem claim1_missing_nested_ok :
    (∀ fs : List (String × PyVal), absentOrEmpty fs "fornecedor" →
        absentOrEmpty fs "unidadeGestoraCompras" → absentOrEmpty fs "unidadeGestora" →
        (normalizeA (PyVal.dict fs)).map (fun r => r.nomeFornecedor) = Except.ok PyVal.none
          ∧ (normalizeA (PyVal.dict fs)).map (fun r => r.cnpjFornecedor) = Except.ok PyVal.none
          ∧ (normalizeA (PyVal.dict fs)).map (fun r => r.codigoUGExecutora) = Except.ok PyVal.none
          ∧ (normalizeA (PyVal.dict fs)).map (fun r => r.nomeUGExecutora) = Except.ok PyVal.none
          ∧ (normalizeA (PyVal.dict fs)).map (fun r => r.codigoUGResponsavel) = Except.ok PyVal.none
          ∧ (normalizeA (PyVal.dict fs)).map (fun r => r.nomeUGResponsavel) = Except.ok PyVal.none
          ∧ (normalizeA (PyVal.dict fs)).map (fun r => r.codigoOrgao) = Except.ok PyVal.none
          ∧ (normalizeA (PyVal.dict fs)).map (fun r => r.nomeOrgao) = Except.ok PyVal.none)
      ∧ (∀ (fs gfs : List (String × PyVal)), absentOrEmpty fs "fornecedor" →
          absentOrEmpty fs "unidadeGestoraCompras" →
          dictGet fs "unidadeGestora" = some (PyVal.dict gfs) →
          absentOrEmpty gfs "orgaoVinculado" →
          (normalizeA (PyVal.dict fs)).map (fun r => r.codigoOrgao) = Except.ok PyVal.none
            ∧ (normalizeA (PyVal.dict fs)).map (fun r => r.nomeOrgao) = Except.ok PyVal.none) := by
  constructor
  · intro fs h1 h2 h3
    rcases h1 with h1 | h1 <;> rcases h2 with h2 | h2 <;> rcases h3 with h3 | h3 <;>
      simp [normalizeA, h1, h2, h3, Except.map, dGet_nil, dictGet_nil, pyOr, truthy]
  · intro fs gfs h1 h2 h3 h4
    rcases h1 with h1 | h1 <;> rcases h2 with h2 | h2 <;> rcases h4 with h4 | h4 <;>
      simp [normalizeA, h1, h2, h3, h4, Except.map, dGet_nil, dictGet_nil, pyOr, truthy]

/-- Claim C1 (witness): the fully empty raw record `{}` normalizes with all
nested-path fields missing. -/
theorem claim1_witness :
    (normalizeA (PyVal.dict [])).map (fun r => r.nomeFornecedor) = Except.ok PyVal.none
      ∧ (normalizeA (PyVal.dict [])).map (fun r => r.cnpjFornecedor) = Except.ok PyVal.none
      ∧ (normalizeA (PyVal.dict [])).map (fun r => r.codigoUGExecutora) = Except.ok PyVal.none
      ∧ (normalizeA (PyVal.dict [])).map (fun r => r.nomeUGExecutora) = Except.ok PyVal.none
      ∧ (normalizeA (PyVal.dict [])).map (fun r => r.codigoUGResponsavel) = Except.ok PyVal.none
      ∧ (normalizeA (PyVal.dict [])).map (fun r => r.nomeUGResponsavel) = Except.ok PyVal.none
      ∧ (normalizeA (PyVal.dict [])).map (fun r => r.codigoOrgao) = Except.ok PyVal.none
      ∧ (normalizeA (PyVal.dict [])).map (fun r => r.nomeOrgao) = Except.ok PyVal.none :=
  claim1_missing_nested_ok.1 [] (Or.inl rfl) (Or.inl rfl) (Or.inl rfl)

/-- A raw record with an unparsable validity-end date, an unparsable initial
value, and no `objeto` at all. -/
def recBad : PyVal :=
  PyVal.dict [("dataFimVigencia", PyVal.str "soon"), ("valorInicialCompra", PyVal.str "abc")]

/-- The normalized row of `recA` (executing unit "A", all other sources
absent). -/
def regAv : RegA := { blankRegA with codigoUGExecutora := PyVal.str "A" }

/-- The normalized row of `recB` (executing unit "B"). -/
def regBv : RegA := { blankRegA with codigoUGExecutora := PyVal.str "B" }

/-- The normalized row of `recA2` (contract number "2", executing unit "A"). -/
def regA2v : RegA :=
  { blankRegA with numeroContrato := PyVal.str "2", codigoUGExecutora := PyVal.str "A" }

/-- Claim C3 (counterexample): the returned table does not have the same
column set on every call.  A call whose upstream has no records returns the
bare `pd.DataFrame()` with an empty column list, while a call that yields a
record returns the full 15-column set. -/
theorem claim3_counterexample :
    (consultarA "26000" "A" Option.none Option.none Option.none 50 respEmpty).1
        = Except.ok ⟨[], []⟩
      ∧ ((consultarA "26000" "A" Option.none Option.none Option.none 50 respOne).1).map
          (fun df => df.columns) = Except.ok colsA
      ∧ colsA ≠ ([] : List String) :=
  ⟨rfl, rfl, by decide⟩

/-- Claim C3 (amended): every successful call returns either the full fixed
column set or — exactly when the upstream produced no records at all — the
bare column-less empty frame; and normalization plus coercion never raise on
absent or unparsable date-like and currency-like sources, producing missing
markers instead (shown on a record with an unparsable date, an unparsable
value and an absent `objeto`). -/
theorem claim3_amended :
    (∀ (codigo ug : String) (di dfim : Option String) (vm : Option Dec) (mp : Nat)
        (respond : Nat → Response) (df : DataFrameA),
        (consultarA codigo ug di dfim vm mp respond).1 = Except.ok df →
        df.columns = colsA ∨ (df.columns = [] ∧ df.rows = []))
      ∧ (normalizeA recBad).map (fun r => (coerceA r).dataFimVigencia)
          = Except.ok Option.none
      ∧ (normalizeA recBad).map (fun r => (coerceA r).valorInicial)
          = Except.ok Option.none
      ∧ (normalizeA recBad).map (fun r => (coerceA r).objeto)
          = Except.ok PyVal.none := by
  refine ⟨?_, rfl, rfl, rfl⟩
  intro codigo ug di dfim vm mp respond df h
  simp only [consultarA] at h
  split at h
  · cases h
  · split at h
    · cases h
      exact Or.inr ⟨rfl, rfl⟩
    · split at h
      · cases h
      · cases h
        exact Or.inl rfl

/-- Claim C3 (witness): a call that yields one record returns the full
column set. -/
theorem claim3_witness :
    (DataFrameA.mk colsA [coerceA regAv]).columns = colsA
      ∨ ((DataFrameA.mk colsA [coerceA regAv]).columns = []
          ∧ (DataFrameA.mk colsA [coerceA regAv]).rows = []) :=
  claim3_amended.1 "26000" "A" Option.none Option.none Option.none 50 respOne
    ⟨colsA, [coerceA regAv]⟩ rfl

/-- Claim C4: with page 3 the first empty page and a page cap of at least 3,
the fetch loop accumulates exactly the records of pages 1 and 2, in page
order, and the number of requests ever issued is bounded by the cap (the
general bound is the second conjunct). -/
theorem claim4_termination :
    (∀ (pages : Nat → List PyVal) (codigo : String) (di dfim : Option String)
        (vm : Option Dec) (mp : Nat),
        pages 1 ≠ [] → pages 2 ≠ [] → pages 3 = [] → 3 ≤ mp →
        (fetchGoA (fun n => ⟨200, "", pages n⟩) codigo di dfim vm mp 1).1
            = Except.ok (pages 1 ++ pages 2)
          ∧ ((fetchGoA (fun n => ⟨200, "", pages n⟩) codigo di dfim vm mp 1).2).length ≤ mp)
      ∧ (∀ (respond : Nat → Response) (codigo : String) (di dfim : Option String)
          (vm : Option Dec) (fuel pagina : Nat),
          ((fetchGoA respond codigo di dfim vm fuel pagina).2).length ≤ fuel) := by
  constructor
  · intro pages codigo di dfim vm mp h1 h2 h3 hmp
    obtain ⟨m, rfl⟩ : ∃ m, mp = m + 3 := ⟨mp - 3, by omega⟩
    rcases hp1 : pages 1 with _ | ⟨a, as⟩
    · exact absurd hp1 h1
    rcases hp2 : pages 2 with _ | ⟨b, bs⟩
    · exact absurd hp2 h2
    constructor
    · simp [fetchGoA, hp1, hp2, h3, Except.map]
    · exact fetchGoA_requests_le (fun n => ⟨200, "", pages n⟩) codigo di dfim vm (m + 3) 1
  · intro respond codigo di dfim vm fuel pagina
    exact fetchGoA_requests_le respond codigo di dfim vm fuel pagina

/-- A concrete upstream page sequence: one record on page 1, one on page 2,
page 3 the first empty page. -/
def pagesW : Nat → List PyVal :=
  fun n => if n = 1 then [recA] else if n = 2 then [recB] else []

/-- Claim C4 (witness): with the concrete two-page sequence and a cap of 50,
exactly the records of pages 1 and 2 are accumulated and at most 50 requests
are issued. -/
theorem claim4_witness :
    (fetchGoA (fun n => ⟨200, "", pagesW n⟩) "26000" Option.none Option.none Option.none 50 1).1
        = Except.ok (pagesW 1 ++ pagesW 2)
      ∧ ((fetchGoA (fun n => ⟨200, "", pagesW n⟩) "26000" Option.none Option.none Option.none 50 1).2).length
          ≤ 50 :=
  claim4_termination.1 pagesW "26000" Option.none Option.none Option.none 50
    (by simp [pagesW]) (by simp [pagesW]) rfl (by omega)

/-- Claim C5 (counterexample): in the `streamlit_app.py` variant an
unauthorized status is not reported as a distinct authentication error — it
raises the generic upstream error carrying status code and body. -/
theorem claim5_counterexample :
    (consultarA "26000" "A" Option.none Option.none Option.none 50 resp401).1
        = Except.error (Err.upstream 401 "unauthorized")
      ∧ isAuthErr (Err.upstream 401 "unauthorized") = false :=
  ⟨rfl, rfl⟩

/-- Claim C5 (amended): in the `services.py` variant, a non-success status on
page 2 (after a good page 1) fails the entire operation — no partial result —
with the distinct authentication error when the status is 401 (that error
carries a fixed token message rather than status and body) and with the
generic error carrying status code and response body otherwise; exactly the
two page requests were issued, so nothing was retried. -/
theorem claim5_amended :
    ∀ (codigo : String) (cnpj di dfim : Option String) (vm : Option Dec) (mp : Nat)
      (respond : Nat → Response),
      codigo ≠ "" → (respond 1).status = 200 → (respond 1).body ≠ [] →
      (respond 2).status ≠ 200 → 2 ≤ mp →
      ((respond 2).status = 401 →
          (consultarS codigo cnpj di dfim vm mp respond).1
            = Except.error (Err.auth "Token invalido ou expirado!"))
        ∧ ((respond 2).status ≠ 401 →
            (consultarS codigo cnpj di dfim vm mp respond).1
              = Except.error (Err.upstream (respond 2).status (respond 2).text))
        ∧ ((consultarS codigo cnpj di dfim vm mp respond).2).length = 2 := by
  intro codigo cnpj di dfim vm mp respond hc h200 hb hne hmp
  obtain ⟨m, rfl⟩ : ∃ m, mp = m + 2 := ⟨mp - 2, by omega⟩
  rcases hb1 : (respond 1).body with _ | ⟨a, as⟩
  · exact absurd hb1 hb
  refine ⟨?_, ?_, ?_⟩
  · intro h401
    simp [consultarS, fetchGoS, hc, h200, hb1, h401, Except.map]
  · intro h401
    simp [consultarS, fetchGoS, hc, h200, hb1, h401, hne, Except.map]
  · by_cases h401 : (respond 2).status = 401 <;>
      simp [consultarS, fetchGoS, hc, h200, hb1, h401, hne, Except.map]

/-- Claim C5 (witness): a concrete 401 on page 2 aborts the whole call with
the authentication error. -/
theorem claim5_witness :
    (consultarS "26000" Option.none Option.none Option.none Option.none 50 respAuth2).1
      = Except.error (Err.auth "Token invalido ou expirado!") :=
  (claim5_amended "26000" Option.none Option.none Option.none Option.none 50 respAuth2
    (by decide) rfl (by simp [respAuth2]) (by decide) (by omega)).1 rfl

/-- Claim C8 (counterexample): the `streamlit_app.py` pipeline's
executing-unit filter can drop records, so the returned sequence can be
shorter than the raw records accumulated: one raw "B"-unit record, zero
returned rows when querying unit "A". -/
theorem claim8_counterexample :
    ((consultarA "26000" "A" Option.none Option.none Option.none 50 respB).1).map
        (fun df => df.rows.length) = Except.ok 0
      ∧ ((fetchGoA respB "26000" Option.none Option.none Option.none 50 1).1).map
          List.length = Except.ok 1
      ∧ (0 : Nat) ≠ 1 :=
  ⟨rfl, rfl, by decide⟩

/-- Claim C8 (amended): in the `services.py` variant (no post-filter), every
successful call returns exactly one row per raw record accumulated across
the fetched pages: normalization neither drops nor fabricates records. -/
theorem claim8_amended :
    ∀ (codigo : String) (cnpj di dfim : Option String) (vm : Option Dec) (mp : Nat)
      (respond : Nat → Response) (todos : List PyVal) (df : DataFrameS),
      (fetchGoS respond codigo cnpj di dfim vm mp 1).1 = Except.ok todos →
      (consultarS codigo cnpj di dfim vm mp respond).1 = Except.ok df →
      df.rows.length = todos.length := by
  intro codigo cnpj di dfim vm mp respond todos df h1 h2
  by_cases hc : codigo = ""
  · simp [consultarS, hc] at h2
  · simp only [consultarS, if_neg hc, h1] at h2
    cases todos with
    | nil =>
      cases h2
      rfl
    | cons x xs =>
      cases hm : mapRegs normalizeS (x :: xs) with
      | error e => rw [hm] at h2; cases h2
      | ok regs =>
        rw [hm] at h2
        cases h2
        simpa using mapRegs_length normalizeS (x :: xs) regs hm

/-- Claim C8 (witness): one raw record on page 1 yields exactly one row in
the `services.py` table. -/
theorem claim8_witness :
    (DataFrameS.mk colsS [coerceS blankRegS]).rows.length = [recA].length :=
  claim8_amended "26000" Option.none Option.none Option.none Option.none 50 respOne
    [recA] ⟨colsS, [coerceS blankRegS]⟩ rfl rfl

/-- Claim C9: the executing-unit filter retains exactly the normalized
records whose `codigoUGExecutora` equals the caller-supplied code, in order:
the returned rows are the ordered filter of the ordered normalization of the
accumulated raw records (so output order equals raw input order), every
returned row matches the code exactly, and the returned rows form a sublist
of the unfiltered normalized rows. -/
theorem claim9_filter_exact :
    ∀ (codigo ug : String) (di dfim : Option String) (vm : Option Dec) (mp : Nat)
      (respond : Nat → Response) (todos : List PyVal) (regs : List RegA),
      (fetchGoA respond codigo di dfim vm mp 1).1 = Except.ok todos →
      todos ≠ [] →
      mapRegs normalizeA todos = Except.ok regs →
      (consultarA codigo ug di dfim vm mp respond).1
          = Except.ok ⟨colsA, (regs.map coerceA).filter
              (fun r => pyEqStr r.codigoUGExecutora ug)⟩
        ∧ (∀ r ∈ (regs.map coerceA).filter (fun r => pyEqStr r.codigoUGExecutora ug),
            pyEqStr r.codigoUGExecutora ug = true)
        ∧ ((regs.map coerceA).filter (fun r => pyEqStr r.codigoUGExecutora ug)).Sublist
            (regs.map coerceA) := by
  intro codigo ug di dfim vm mp respond todos regs h1 hne h2
  refine ⟨?_, ?_, List.filter_sublist _⟩
  · simp only [consultarA, h1]
    cases todos with
    | nil => exact absurd rfl hne
    | cons x xs => rw [h2]
  · intro r hr
    exact (List.mem_filter.mp hr).2

/-- Claim C9 (witness): with raw executing units "A", "B", "A" on page 1,
filtering by "A" returns exactly the two "A" rows, in order. -/
theorem claim9_witness :
    (consultarA "26000" "A" Option.none Option.none Option.none 50 respAB).1
      = Except.ok ⟨colsA, [coerceA regAv, coerceA regA2v]⟩ :=
  (claim9_filter_exact "26000" "A" Option.none Option.none Option.none 50 respAB
    [recA, recB, recA2] [regAv, regBv, regA2v] rfl (by simp) rfl).1
